import Mathlib

/-!
Verification of the localization core of the `edit` text editor
(src/src/bin/edit/localization.rs): the message catalog `S_LANG_LUT`, the
language-selection procedure `init`, and the accessor `loc`.
-/

set_option maxRecDepth 4000

/-- The enum `LocId` from src/src/bin/edit/localization.rs: the closed enumeration of
message identifiers; the final `Count` member records the cardinality. -/
inductive LocId where
  | Ctrl
  | Alt
  | Shift
  | Ok
  | Yes
  | No
  | Cancel
  | Always
  | File
  | FileNew
  | FileOpen
  | FileSave
  | FileSaveAs
  | FileClose
  | FileExit
  | Edit
  | EditUndo
  | EditRedo
  | EditCut
  | EditCopy
  | EditPaste
  | EditFind
  | EditReplace
  | View
  | ViewFocusStatusbar
  | ViewWordWrap
  | Help
  | HelpAbout
  | UnsavedChangesDialogTitle
  | UnsavedChangesDialogDescription
  | UnsavedChangesDialogYes
  | UnsavedChangesDialogNo
  | AboutDialogTitle
  | AboutDialogVersion
  | LargeClipboardWarningLine1
  | LargeClipboardWarningLine2
  | LargeClipboardWarningLine3
  | SuperLargeClipboardWarning
  | WarningDialogTitle
  | ErrorDialogTitle
  | ErrorIcuMissing
  | SearchNeedleLabel
  | SearchReplacementLabel
  | SearchMatchCase
  | SearchWholeWord
  | SearchUseRegex
  | SearchReplaceAll
  | SearchClose
  | EncodingReopen
  | EncodingConvert
  | IndentationTabs
  | IndentationSpaces
  | SaveAsDialogPathLabel
  | SaveAsDialogNameLabel
  | FileOverwriteWarning
  | FileOverwriteWarningDescription
  | Count
  deriving DecidableEq, Fintype

/-- The enum `LangId` from src/src/bin/edit/localization.rs: the closed enumeration of
supported languages; `en` is the base language, `Count` the cardinality. -/
inductive LangId where
  | en
  | de
  | es
  | fr
  | it
  | ja
  | ko
  | pt_br
  | ru
  | zh_hans
  | zh_hant
  | vi
  | Count
  deriving DecidableEq, Fintype

/-- The Rust `as usize` cast on `LocId`: the declaration-order discriminant. -/
def LocId.asUsize : LocId -> Nat
  | .Ctrl => 0
  | .Alt => 1
  | .Shift => 2
  | .Ok => 3
  | .Yes => 4
  | .No => 5
  | .Cancel => 6
  | .Always => 7
  | .File => 8
  | .FileNew => 9
  | .FileOpen => 10
  | .FileSave => 11
  | .FileSaveAs => 12
  | .FileClose => 13
  | .FileExit => 14
  | .Edit => 15
  | .EditUndo => 16
  | .EditRedo => 17
  | .EditCut => 18
  | .EditCopy => 19
  | .EditPaste => 20
  | .EditFind => 21
  | .EditReplace => 22
  | .View => 23
  | .ViewFocusStatusbar => 24
  | .ViewWordWrap => 25
  | .Help => 26
  | .HelpAbout => 27
  | .UnsavedChangesDialogTitle => 28
  | .UnsavedChangesDialogDescription => 29
  | .UnsavedChangesDialogYes => 30
  | .UnsavedChangesDialogNo => 31
  | .AboutDialogTitle => 32
  | .AboutDialogVersion => 33
  | .LargeClipboardWarningLine1 => 34
  | .LargeClipboardWarningLine2 => 35
  | .LargeClipboardWarningLine3 => 36
  | .SuperLargeClipboardWarning => 37
  | .WarningDialogTitle => 38
  | .ErrorDialogTitle => 39
  | .ErrorIcuMissing => 40
  | .SearchNeedleLabel => 41
  | .SearchReplacementLabel => 42
  | .SearchMatchCase => 43
  | .SearchWholeWord => 44
  | .SearchUseRegex => 45
  | .SearchReplaceAll => 46
  | .SearchClose => 47
  | .EncodingReopen => 48
  | .EncodingConvert => 49
  | .IndentationTabs => 50
  | .IndentationSpaces => 51
  | .SaveAsDialogPathLabel => 52
  | .SaveAsDialogNameLabel => 53
  | .FileOverwriteWarning => 54
  | .FileOverwriteWarningDescription => 55
  | .Count => 56

/-- The Rust `as usize` cast on `LangId`: the declaration-order discriminant. -/
def LangId.asUsize : LangId -> Nat
  | .en => 0
  | .de => 1
  | .es => 2
  | .fr => 3
  | .it => 4
  | .ja => 5
  | .ko => 6
  | .pt_br => 7
  | .ru => 8
  | .zh_hans => 9
  | .zh_hant => 10
  | .vi => 11
  | .Count => 12

/-- The table `S_LANG_LUT` from src/src/bin/edit/localization.rs: one row per `LocId`
(in declaration order), one column per `LangId` (in declaration order). -/
def S_LANG_LUT : List (List String) := [
  -- Ctrl
  ["Ctrl", "Strg", "Ctrl", "Ctrl", "Ctrl", "Ctrl", "Ctrl", "Ctrl", "Ctrl", "Ctrl", "Ctrl", "Ctrl"],
  -- Alt
  ["Alt", "Alt", "Alt", "Alt", "Alt", "Alt", "Alt", "Alt", "Alt", "Alt", "Alt", "Alt"],
  -- Shift
  ["Shift", "Umschalt", "Mayús", "Maj", "Maiusc", "Shift", "Shift", "Shift", "Shift", "Shift", "Shift", "Shift"],
  -- Ok
  ["Ok", "OK", "Aceptar", "OK", "OK", "OK", "확인", "OK", "ОК", "确定", "確定", "Ok"],
  -- Yes
  ["Yes", "Ja", "Sí", "Oui", "Sì", "はい", "예", "Sim", "Да", "是", "是", "Đồng ý"],
  -- No
  ["No", "Nein", "No", "Non", "No", "いいえ", "아니오", "Não", "Нет", "否", "否", "Không"],
  -- Cancel
  ["Cancel", "Abbrechen", "Cancelar", "Annuler", "Annulla", "キャンセル", "취소", "Cancelar", "Отмена", "取消", "取消", "Huỷ"],
  -- Always
  ["Always", "Immer", "Siempre", "Toujours", "Sempre", "常に", "항상", "Sempre", "Всегда", "总是", "總是", "Luôn luôn"],
  -- File
  ["File", "Datei", "Archivo", "Fichier", "File", "ファイル", "파일", "Arquivo", "Файл", "文件", "檔案", "Tập tin"],
  -- FileNew
  ["New File…", "Neue Datei…", "Nuevo archivo…", "Nouveau fichier…", "Nuovo file…", "新規ファイル…", "새 파일…", "Novo arquivo…", "Новый файл…", "新建文件…", "新增檔案…", "Tập tin mới…"],
  -- FileOpen
  ["Open File…", "Datei öffnen…", "Abrir archivo…", "Ouvrir un fichier…", "Apri file…", "ファイルを開く…", "파일 열기…", "Abrir arquivo…", "Открыть файл…", "打开文件…", "開啟檔案…", "Mở tập tin…"],
  -- FileSave
  ["Save", "Speichern", "Guardar", "Enregistrer", "Salva", "保存", "저장", "Salvar", "Сохранить", "保存", "儲存", "Lưu"],
  -- FileSaveAs
  ["Save As…", "Speichern unter…", "Guardar como…", "Enregistrer sous…", "Salva come…", "名前を付けて保存…", "다른 이름으로 저장…", "Salvar como…", "Сохранить как…", "另存为…", "另存新檔…", "Lưu như…"],
  -- FileClose
  ["Close Editor", "Editor schließen", "Cerrar editor", "Fermer l\x27éditeur", "Chiudi editor", "エディターを閉じる", "편집기 닫기", "Fechar editor", "Закрыть редактор", "关闭编辑器", "關閉編輯器", "Đóng editor"],
  -- FileExit
  ["Exit", "Beenden", "Salir", "Quitter", "Esci", "終了", "종료", "Sair", "Выход", "退出", "退出", "Thoát"],
  -- Edit
  ["Edit", "Bearbeiten", "Editar", "Édition", "Modifica", "編集", "편집", "Editar", "Правка", "编辑", "編輯", "Chỉnh sửa"],
  -- EditUndo
  ["Undo", "Rückgängig", "Deshacer", "Annuler", "Annulla", "元に戻す", "실행 취소", "Desfazer", "Отменить", "撤销", "復原", "Hoàn tác"],
  -- EditRedo
  ["Redo", "Wiederholen", "Rehacer", "Rétablir", "Ripeti", "やり直し", "다시 실행", "Refazer", "Повторить", "重做", "重做", "Thực hiện lại"],
  -- EditCut
  ["Cut", "Ausschneiden", "Cortar", "Couper", "Taglia", "切り取り", "잘라내기", "Cortar", "Вырезать", "剪切", "剪下", "Cắt"],
  -- EditCopy
  ["Copy", "Kopieren", "Copiar", "Copier", "Copia", "コピー", "복사", "Copiar", "Копировать", "复制", "複製", "Chép"],
  -- EditPaste
  ["Paste", "Einfügen", "Pegar", "Coller", "Incolla", "貼り付け", "붙여넣기", "Colar", "Вставить", "粘贴", "貼上", "Dán"],
  -- EditFind
  ["Find", "Suchen", "Buscar", "Rechercher", "Trova", "検索", "찾기", "Encontrar", "Найти", "查找", "尋找", "Tìm kiếm"],
  -- EditReplace
  ["Replace", "Ersetzen", "Reemplazar", "Remplacer", "Sostituisci", "置換", "바꾸기", "Substituir", "Заменить", "替换", "取代", "Thay thế"],
  -- View
  ["View", "Ansicht", "Ver", "Affichage", "Visualizza", "表示", "보기", "Exibir", "Вид", "视图", "檢視", "Xem"],
  -- ViewFocusStatusbar
  ["Focus Statusbar", "Statusleiste fokussieren", "Enfocar barra de estado", "Activer la barre d’état", "Attiva barra di stato", "ステータスバーにフォーカス", "상태 표시줄로 포커스 이동", "Focar barra de status", "Фокус на строку состояния", "聚焦状态栏", "聚焦狀態列", "Vào thanh trạng thái"],
  -- ViewWordWrap
  ["Word Wrap", "Zeilenumbruch", "Ajuste de línea", "Retour à la ligne", "A capo automatico", "折り返し", "자동 줄 바꿈", "Quebra de linha", "Перенос слов", "自动换行", "自動換行", "Ngắt dòng"],
  -- Help
  ["Help", "Hilfe", "Ayuda", "Aide", "Aiuto", "ヘルプ", "도움말", "Ajuda", "Помощь", "帮助", "幫助", "Trợ giúp"],
  -- HelpAbout
  ["About", "Über", "Acerca de", "À propos", "Informazioni", "情報", "정보", "Sobre", "О программе", "关于", "關於", "Giới thiệu"],
  -- UnsavedChangesDialogTitle
  ["Unsaved Changes", "Ungespeicherte Änderungen", "Cambios sin guardar", "Modifications non enregistrées", "Modifiche non salvate", "未保存の変更", "저장되지 않은 변경 사항", "Alterações não salvas", "Несохраненные изменения", "未保存的更改", "未儲存的變更", "Thay đổi chưa được lưu"],
  -- UnsavedChangesDialogDescription
  ["Do you want to save the changes you made?", "Möchten Sie die vorgenommenen Änderungen speichern?", "¿Desea guardar los cambios realizados?", "Voulez-vous enregistrer les modifications apportées ?", "Vuoi salvare le modifiche apportate?", "変更内容を保存しますか？", "변경한 내용을 저장하시겠습니까?", "Deseja salvar as alterações feitas?", "Вы хотите сохранить внесённые изменения?", "您要保存所做的更改吗？", "您要保存所做的變更嗎？", "Bạn có muôn lưu các thay đổi đã thực hiện?"],
  -- UnsavedChangesDialogYes
  ["Save", "Speichern", "Guardar", "Enregistrer", "Salva", "保存", "저장", "Salvar", "Сохранить", "保存", "儲存", "Lưu"],
  -- UnsavedChangesDialogNo
  ["Don\x27t Save", "Nicht speichern", "No guardar", "Ne pas enregistrer", "Non salvare", "保存しない", "저장 안 함", "Não salvar", "Не сохранять", "不保存", "不儲存", "Không lưu"],
  -- AboutDialogTitle
  ["About", "Über", "Acerca de", "À propos", "Informazioni", "情報", "정보", "Sobre", "О программе", "关于", "關於", "Giới thiệu"],
  -- AboutDialogVersion
  ["Version: ", "Version: ", "Versión: ", "Version : ", "Versione: ", "バージョン: ", "버전: ", "Versão: ", "Версия: ", "版本: ", "版本: ", "Phiên bản: "],
  -- LargeClipboardWarningLine1
  ["Text you copy is shared with the terminal clipboard.", "Der kopierte Text wird mit der Terminal-Zwischenablage geteilt.", "El texto que copies se comparte con el portapapeles del terminal.", "Le texte que vous copiez est partagé avec le presse-papiers du terminal.", "Il testo copiato viene condiviso con gli appunti del terminale.", "コピーしたテキストはターミナルのクリップボードと共有されます。", "복사한 텍스트가 터미널 클립보드와 공유됩니다.", "O texto copiado é compartilhado com a área de transferência do terminal.", "Скопированный текст передаётся в буфер обмена терминала.", "你复制的文本将共享到终端剪贴板。", "您複製的文字將會與終端機剪貼簿分享。", "Văn bản sao chép được chia sẻ với clipboard của hộp lệnh terminal."],
  -- LargeClipboardWarningLine2
  ["You copied {size} which may take a long time to share.", "Sie haben {size} kopiert, das Weitergeben könnte lange dauern.", "Copiaste {size}, lo que puede tardar en compartirse.", "Vous avez copié {size}, ce qui peut être long à partager.", "Hai copiato {size}, potrebbe richiedere molto tempo per condividerlo.", "{size} をコピーしました。共有に時間がかかる可能性があります。", "{size}를 복사했습니다. 공유하는 데 시간이 오래 걸릴 수 있습니다.", "Você copiou {size}, o que pode demorar para compartilhar.", "Вы скопировали {size}; передача может занять много времени.", "你复制了 {size}，共享可能需要较长时间。", "您已複製 {size}，共享可能需要較長時間。", "Bạn đã sao chép {size}, có thể mất một lúc để chia sẻ."],
  -- LargeClipboardWarningLine3
  ["Do you want to send it anyway?", "Möchten Sie es trotzdem senden?", "¿Desea enviarlo de todas formas?", "Voulez-vous quand même l’envoyer?", "Vuoi inviarlo comunque?", "それでも送信しますか？", "그래도 전송하시겠습니까?", "Deseja enviar mesmo assim?", "Отправить в любом случае?", "仍要发送吗？", "仍要傳送嗎？", "Bạn có muốn tiếp tục gửi đi không?"],
  -- SuperLargeClipboardWarning
  ["The text you copied is too large to be shared.", "Der kopierte Text ist zu groß, um geteilt zu werden.", "El texto que copiaste es demasiado grande para compartirse.", "Le texte que vous avez copié est trop volumineux pour être partagé.", "Il testo copiato è troppo grande per essere condiviso.", "コピーしたテキストは大きすぎて共有できません。", "복사한 텍스트가 너무 커서 공유할 수 없습니다.", "O texto copiado é grande demais para ser compartilhado.", "Скопированный текст слишком велик для передачи.", "你复制的文本过大，无法共享。", "您複製的文字過大，無法分享。", "Văn bản sao chép quá lớn để chia sẻ."],
  -- WarningDialogTitle
  ["Warning", "Warnung", "Advertencia", "Avertissement", "Avviso", "警告", "경고", "Aviso", "Предупреждение", "警告", "警告", "Cảnh báo"],
  -- ErrorDialogTitle
  ["Error", "Fehler", "Error", "Erreur", "Errore", "エラー", "오류", "Erro", "Ошибка", "错误", "錯誤", "Lỗi"],
  -- ErrorIcuMissing
  ["This operation requires the ICU library", "Diese Operation erfordert die ICU-Bibliothek", "Esta operación requiere la biblioteca ICU", "Cette opération nécessite la bibliothèque ICU", "Questa operazione richiede la libreria ICU", "この操作にはICUライブラリが必要です", "이 작업에는 ICU 라이브러리가 필요합니다", "Esta operação requer a biblioteca ICU", "Эта операция требует наличия библиотеки ICU", "此操作需要 ICU 库", "此操作需要 ICU 庫", "Thao tác này yêu cầu sử dụng thư viện ICU."],
  -- SearchNeedleLabel
  ["Find:", "Suchen:", "Buscar:", "Rechercher :", "Trova:", "検索:", "찾기:", "Encontrar:", "Найти:", "查找:", "尋找:", "Tìm kiếm:"],
  -- SearchReplacementLabel
  ["Replace:", "Ersetzen:", "Reemplazar:", "Remplacer :", "Sostituire:", "置換:", "바꾸기:", "Substituir:", "Замена:", "替换:", "替換:", "Thay thế:"],
  -- SearchMatchCase
  ["Match Case", "Groß/Klein", "May/Min", "Casse", "Maius/minus", "大/小文字", "대소문자", "Maius/minus", "Регистр", "区分大小写", "區分大小寫", "Khớp HOA/thường:"],
  -- SearchWholeWord
  ["Whole Word", "Ganzes Wort", "Palabra", "Mot entier", "Parola", "単語単位", "전체 단어", "Palavra", "Слово", "全字匹配", "全字匹配", "Toàn bộ từ"],
  -- SearchUseRegex
  ["Use Regex", "RegEx", "RegEx", "RegEx", "RegEx", "正規表現", "정규식", "RegEx", "RegEx", "正则", "正則", "Dùng Regex"],
  -- SearchReplaceAll
  ["Replace All", "Alle ersetzen", "Reemplazar todo", "Remplacer tout", "Sostituisci tutto", "すべて置換", "모두 바꾸기", "Substituir tudo", "Заменить все", "全部替换", "全部取代", "Thay thế hết"],
  -- SearchClose
  ["Close", "Schließen", "Cerrar", "Fermer", "Chiudi", "閉じる", "닫기", "Fechar", "Закрыть", "关闭", "關閉", "Đóng"],
  -- EncodingReopen
  ["Reopen with encoding", "Mit Kodierung erneut öffnen", "Reabrir con codificación", "Rouvrir avec un encodage différent", "Riapri con codifica", "エンコーディングで再度開く", "인코딩으로 다시 열기", "Reabrir com codificação", "Открыть снова с кодировкой", "使用编码重新打开", "使用編碼重新打開", "Mở lại với bộ mã hoá"],
  -- EncodingConvert
  ["Convert to encoding", "In Kodierung konvertieren", "Convertir a otra codificación", "Convertir en encodage", "Converti in codifica", "エンコーディングに変換", "인코딩으로 변환", "Converter para codificação", "Преобразовать в кодировку", "转换为编码", "轉換為編碼", "Chuyển sang bộ mã hoá"],
  -- IndentationTabs
  ["Tabs", "Tabs", "Tabulaciones", "Tabulations", "Tabulazioni", "タブ", "탭", "Tabulações", "Табы", "制表符", "製表符", "Dấu tab"],
  -- IndentationSpaces
  ["Spaces", "Leerzeichen", "Espacios", "Espaces", "Spazi", "スペース", "공백", "Espaços", "Пробелы", "空格", "空格", "Dấu cách"],
  -- SaveAsDialogPathLabel
  ["Folder:", "Ordner:", "Carpeta:", "Dossier :", "Cartella:", "フォルダ:", "폴더:", "Pasta:", "Папка:", "文件夹:", "資料夾:", "Thư mục:"],
  -- SaveAsDialogNameLabel
  ["File name:", "Dateiname:", "Nombre de archivo:", "Nom de fichier :", "Nome del file:", "ファイル名:", "파일 이름:", "Nome do arquivo:", "Имя файла:", "文件名:", "檔案名稱:", "Tên tập tin:"],
  -- FileOverwriteWarning
  ["Confirm Save As", "Speichern unter bestätigen", "Confirmar Guardar como", "Confirmer Enregistrer sous", "Conferma Salva con nome", "名前を付けて保存の確認", "다른 이름으로 저장 확인", "Confirmar Salvar como", "Подтвердите «Сохранить как…»", "确认另存为", "確認另存新檔", "Xác nhận Lưu như"],
  -- FileOverwriteWarningDescription
  ["File already exists. Do you want to overwrite it?", "Datei existiert bereits. Möchten Sie sie überschreiben?", "El archivo ya existe. ¿Desea sobrescribirlo?", "Le fichier existe déjà. Voulez-vous l’écraser?", "Il file esiste già. Vuoi sovrascriverlo?", "ファイルは既に存在します。上書きしますか？", "파일이 이미 존재합니다. 덮어쓰시겠습니까?", "O arquivo já existe. Deseja sobrescrevê-lo?", "Файл уже существует. Перезаписать?", "文件已存在。要覆盖它吗？", "檔案已存在。要覆蓋它嗎？", "Tập tin đã tồn tại. Bạn có muốn ghi đè nó không?"]
]

/-- Modelled from the spec: ASCII case-folding of a single character ("ASCII
case-folding only — the tags and prefixes are all ASCII"). -/
def asciiLower (c : Char) : Char :=
  if 'A' ≤ c ∧ c ≤ 'Z' then Char.ofNat (c.toNat + 32) else c

/-- Character-list core of the case-insensitive starts-with test. -/
def isPrefixCaseless : List Char → List Char → Bool
  | [], _ => true
  | _ :: _, [] => false
  | p :: ps, c :: cs => (asciiLower p == asciiLower c) && isPrefixCaseless ps cs

/-- Modelled from the spec: `starts_with_ignore_ascii_case` of
`edit::helpers::AsciiStringHelpers`, whose source (src/helpers.rs) is not among
the provided files. Spec: "test whether the tag begins with the association
prefix, case-insensitively (ASCII case-folding only)". -/
def startsWithIgnoreAsciiCase (s pre : String) : Bool :=
  isPrefixCaseless pre.data s.data

/-- The association list `LANG_MAP` from `init` in
src/src/bin/edit/localization.rs, in its fixed priority order. -/
def LANG_MAP : List (String × LangId) := [
  ("en", LangId.en),
  ("de", LangId.de),
  ("es", LangId.es),
  ("fr", LangId.fr),
  ("it", LangId.it),
  ("ja", LangId.ja),
  ("ko", LangId.ko),
  ("pt-br", LangId.pt_br),
  ("ru", LangId.ru),
  ("zh-hant", LangId.zh_hant),
  ("zh-tw", LangId.zh_hant),
  ("zh", LangId.zh_hans),
  ("vi", LangId.vi)]

/-- The inner loop of `init` for one preference tag `l`: scan `LANG_MAP` in
order, take the first entry whose string is a case-insensitive starts-with match
of `l` and break; keep the running `lang` when nothing matches. -/
def matchTag (lang : LangId) (l : String) : LangId :=
  match LANG_MAP.find? (fun p => startsWithIgnoreAsciiCase l p.1) with
  | some p => p.2
  | none => lang

/-- The selection procedure `init` from src/src/bin/edit/localization.rs,
parameterized by the preference-tag sequence that the Rust code pulls from the
excluded collaborator `sys::preferred_languages`. Starts from the base language
`en`, folds every tag through the inner scan, and the result is the value
committed to the process-wide `S_LANG` state. -/
def init (langs : List String) : LangId :=
  langs.foldl matchTag LangId.en

/-- The first match of `LANG_MAP` against tag `l`, if any: the language the tag
would select on its own. -/
def tagMatch (l : String) : Option LangId :=
  (LANG_MAP.find? (fun p => startsWithIgnoreAsciiCase l p.1)).map Prod.snd

/-- Double indexing `S_LANG_LUT[id][lang]`, with the out-of-bounds panic of Rust
indexing embedded as `none`. -/
def lut_get? (id lang : Nat) : Option String :=
  (S_LANG_LUT.get? id).bind fun row => row.get? lang

/-- The accessor `loc` from src/src/bin/edit/localization.rs, parameterized by
the committed language state `sLang` (the Rust global `S_LANG`). -/
def loc (sLang : LangId) (id : LocId) : Option String :=
  lut_get? id.asUsize sLang.asUsize

/-- The accessor as a state transformer: `loc` reads the committed language and
returns it unchanged (the Rust `loc` only reads `S_LANG`). -/
def lookupOp (sLang : LangId) (id : LocId) : Option String × LangId :=
  (loc sLang id, sLang)

/-- Two strings are ASCII case variants of one another: equal after ASCII
case-folding every character. -/
def eqIgnoreAsciiCase (s t : String) : Bool :=
  s.data.map asciiLower == t.data.map asciiLower


theorem matchTag_eq_getD (lang : LangId) (l : String) :
    matchTag lang l = (tagMatch l).getD lang := by
  unfold matchTag tagMatch
  cases LANG_MAP.find? (fun p => startsWithIgnoreAsciiCase l p.1) <;> rfl

theorem foldl_matchTag_lastD (langs : List String) :
    ∀ a : LangId, langs.foldl matchTag a = (langs.filterMap tagMatch).getLastD a := by
  induction langs with
  | nil => intro a; rfl
  | cons l ls ih =>
    intro a
    rw [List.foldl_cons, ih, List.filterMap_cons, matchTag_eq_getD]
    cases h : tagMatch l with
    | none => rfl
    | some x => exact (List.getLastD_cons a x (List.filterMap tagMatch ls)).symm

theorem matchTag_cases (lang : LangId) (l : String) :
    matchTag lang l = lang ∨ matchTag lang l ∈ LANG_MAP.map Prod.snd := by
  unfold matchTag
  cases h : LANG_MAP.find? (fun p => startsWithIgnoreAsciiCase l p.1) with
  | none => exact Or.inl rfl
  | some p => exact Or.inr (List.mem_map_of_mem Prod.snd (List.mem_of_find?_eq_some h))

theorem foldl_matchTag_reachable (langs : List String) :
    ∀ a : LangId, (a = LangId.en ∨ a ∈ LANG_MAP.map Prod.snd) →
      (langs.foldl matchTag a = LangId.en ∨
        langs.foldl matchTag a ∈ LANG_MAP.map Prod.snd) := by
  induction langs with
  | nil => intro a ha; exact ha
  | cons l ls ih =>
    intro a ha
    rw [List.foldl_cons]
    rcases matchTag_cases a l with h | h
    · exact ih _ (by rw [h]; exact ha)
    · exact ih _ (Or.inr h)

theorem init_reachable_aux (langs : List String) :
    init langs = LangId.en ∨ init langs ∈ LANG_MAP.map Prod.snd :=
  foldl_matchTag_reachable langs LangId.en (Or.inl rfl)

theorem init_ne_count (langs : List String) : init langs ≠ LangId.Count := by
  rcases init_reachable_aux langs with h | h
  · rw [h]; decide
  · intro hc; rw [hc] at h; revert h; decide

theorem loc_isSome_all :
    ∀ (lang : LangId) (id : LocId), lang ≠ LangId.Count → id ≠ LocId.Count →
      (loc lang id).isSome = true := by decide

theorem isPrefixCaseless_congr (ps : List Char) :
    ∀ cs cs', cs.map asciiLower = cs'.map asciiLower →
      isPrefixCaseless ps cs = isPrefixCaseless ps cs' := by
  induction ps with
  | nil => intro cs cs' _; rfl
  | cons p ps ih =>
    intro cs cs' h
    cases cs with
    | nil =>
      cases cs' with
      | nil => rfl
      | cons c' cs2 => simp at h
    | cons c cs1 =>
      cases cs' with
      | nil => simp at h
      | cons c' cs2 =>
        simp only [List.map_cons, List.cons.injEq] at h
        simp only [isPrefixCaseless, h.1, ih cs1 cs2 h.2]

theorem startsWith_congr (l l' pre : String) (h : eqIgnoreAsciiCase l l' = true) :
    startsWithIgnoreAsciiCase l pre = startsWithIgnoreAsciiCase l' pre := by
  unfold startsWithIgnoreAsciiCase
  unfold eqIgnoreAsciiCase at h
  exact isPrefixCaseless_congr pre.data l.data l'.data (by simpa using h)

theorem matchTag_congr (a : LangId) (l l' : String) (h : eqIgnoreAsciiCase l l' = true) :
    matchTag a l = matchTag a l' := by
  unfold matchTag
  have hf : (fun p : String × LangId => startsWithIgnoreAsciiCase l p.1)
      = (fun p : String × LangId => startsWithIgnoreAsciiCase l' p.1) :=
    funext fun p => startsWith_congr l l' p.1 h
  rw [hf]

theorem init_congr_aux {langs langs' : List String}
    (h : List.Forall₂ (fun a b => eqIgnoreAsciiCase a b = true) langs langs') :
    ∀ a : LangId, langs.foldl matchTag a = langs'.foldl matchTag a := by
  induction h with
  | nil => intro a; rfl
  | cons hd tl ih =>
    intro a
    rw [List.foldl_cons, List.foldl_cons, matchTag_congr a _ _ hd]
    exact ih _

/-- C1 (counterexample): the claimed end-to-end scenario fails on the code. With
preference sequence ["pt-BR", "en"] the committed language is not `pt_br`: the
second tag "en" also matches, and the loop in `init` lets the last matching tag
win, so the base language `en` is committed and the lookups return the `en`
texts, not "OK"/"Salvar". -/
theorem loc_scenario_ptbr_en_refuted :
    ¬ (init ["pt-BR", "en"] = LangId.pt_br ∧
       loc (init ["pt-BR", "en"]) LocId.Ok = some "OK" ∧
       loc (init ["pt-BR", "en"]) LocId.FileSave = some "Salvar") := by decide

/-- C1 (amended): with preference sequence ["pt-BR", "en"], the tag "pt-BR"
alone selects `pt_br`, but per last-match-wins the trailing "en" tag overrides
it, so the committed language is the base language `en`, and afterwards
lookup(Ok) returns "Ok" and lookup(FileSave) returns "Save". -/
theorem loc_scenario_ptbr_en :
    init ["pt-BR"] = LangId.pt_br ∧
    init ["pt-BR", "en"] = LangId.en ∧
    loc (init ["pt-BR", "en"]) LocId.Ok = some "Ok" ∧
    loc (init ["pt-BR", "en"]) LocId.FileSave = some "Save" := by decide

/-- C2: for every preference-tag sequence the committed language is the one
determined by the last matching tag (the fold equals the last element of the
per-tag matches, with base default `en`); in particular ["fr", "ja"] commits the
language of "ja" even though "fr" also matches. -/
theorem init_last_match_wins :
    (∀ langs : List String,
        init langs = (langs.filterMap tagMatch).getLastD LangId.en) ∧
    init ["fr", "ja"] = LangId.ja ∧
    tagMatch "fr" = some LangId.fr ∧ tagMatch "ja" = some LangId.ja :=
  ⟨fun langs => foldl_matchTag_lastD langs LangId.en, by decide, by decide, by decide⟩

/-- C3: an empty preference sequence commits the base language `en` (the first
`LangId` member), and every subsequent lookup returns the base-language column
of the catalog for that id. -/
theorem init_empty_default :
    init [] = LangId.en ∧
    ∀ id : LocId, loc (init []) id = lut_get? id.asUsize LangId.en.asUsize :=
  ⟨rfl, fun _ => rfl⟩

/-- C4: the preference sequence ["zh-hant"] commits `zh_hant`: the association
list is scanned in its fixed order and the first matching entry wins, so the
specific "zh-hant" entry beats the broader "zh" entry, which also matches the
tag but maps to the distinct language `zh_hans`. -/
theorem init_zh_hant_priority :
    init ["zh-hant"] = LangId.zh_hant ∧
    tagMatch "zh-hant" = some LangId.zh_hant ∧
    startsWithIgnoreAsciiCase "zh-hant" "zh" = true ∧
    (("zh", LangId.zh_hans) ∈ LANG_MAP) ∧
    LangId.zh_hant ≠ LangId.zh_hans := by decide

/-- C5: for every `LocId` other than `Count` and every `LangId` other than
`Count`, the catalog cell `[id][lang]` exists and is a non-empty string. -/
theorem catalog_total :
    ∀ (id : LocId) (lang : LangId), id ≠ LocId.Count → lang ≠ LangId.Count →
      (lut_get? id.asUsize lang.asUsize).isSome = true ∧
      (lut_get? id.asUsize lang.asUsize).getD "" ≠ "" := by decide

/-- Witness for C5 at the concrete cell (FileSave, pt_br). -/
theorem catalog_total_witness :
    (lut_get? LocId.FileSave.asUsize LangId.pt_br.asUsize).isSome = true ∧
    (lut_get? LocId.FileSave.asUsize LangId.pt_br.asUsize).getD "" ≠ "" :=
  catalog_total LocId.FileSave LangId.pt_br (by decide) (by decide)

/-- C6: the table has exactly `LocId::Count` rows, each of exactly
`LangId::Count` columns, and for every preference sequence and every `LocId`
strictly below `Count`, both indexing steps of the accessor are in bounds: the
out-of-bounds (`none`) branch of `loc` is unreachable. -/
theorem loc_in_bounds :
    S_LANG_LUT.length = LocId.Count.asUsize ∧
    (∀ row ∈ S_LANG_LUT, row.length = LangId.Count.asUsize) ∧
    ∀ (langs : List String) (id : LocId), id ≠ LocId.Count →
      (loc (init langs) id).isSome = true :=
  ⟨rfl, by decide,
    fun langs id hid => loc_isSome_all (init langs) id (init_ne_count langs) hid⟩

/-- Witness for C6 at the concrete preference sequence ["fr"] and id `File`. -/
theorem loc_in_bounds_witness : (loc (init ["fr"]) LocId.File).isSome = true :=
  loc_in_bounds.2.2 ["fr"] LocId.File (by decide)

/-- C7: prefix matching is ASCII-case-insensitive: replacing tags of a
preference sequence by ASCII case variants (pointwise) commits the same
language; in particular "DE-at" commits the same language as "de-AT", namely
`de`. -/
theorem init_case_insensitive :
    (∀ langs langs' : List String,
        List.Forall₂ (fun a b => eqIgnoreAsciiCase a b = true) langs langs' →
        init langs = init langs') ∧
    init ["DE-at"] = init ["de-AT"] ∧ init ["DE-at"] = LangId.de :=
  ⟨fun _ _ h => init_congr_aux h LangId.en, by decide, by decide⟩

/-- Witness for C7 at the concrete case-variant sequences ["DE-at", "JA"] and
["de-AT", "ja"]. -/
theorem init_case_insensitive_witness :
    init ["DE-at", "JA"] = init ["de-AT", "ja"] :=
  init_case_insensitive.1 ["DE-at", "JA"] ["de-AT", "ja"]
    (List.Forall₂.cons (by decide) (List.Forall₂.cons (by decide) List.Forall₂.nil))

/-- C8: a preference tag that matches no entry of the association list leaves
the running selection unchanged (the embedding is total, so no error or
diagnostic exists); in particular ["xx-unknown"] commits the base language. -/
theorem unknown_tag_ignored :
    (∀ (lang : LangId) (l : String), tagMatch l = none → matchTag lang l = lang) ∧
    init ["xx-unknown"] = LangId.en := by
  constructor
  · intro lang l h
    rw [matchTag_eq_getD, h]
    rfl
  · decide

/-- Witness for C8 at the concrete running selection `fr` and tag
"xx-unknown". -/
theorem unknown_tag_ignored_witness :
    matchTag LangId.fr "xx-unknown" = LangId.fr :=
  unknown_tag_ignored.1 LangId.fr "xx-unknown" (by decide)

/-- C9: the accessor is deterministic: it does not change the committed-language
state, so two consecutive lookups of the same id return identical text. -/
theorem lookup_deterministic :
    ∀ (sLang : LangId) (id : LocId),
      (lookupOp sLang id).1 = (lookupOp (lookupOp sLang id).2 id).1 ∧
      (lookupOp sLang id).2 = sLang :=
  fun _ _ => ⟨rfl, rfl⟩

/-- C10: for every preference sequence the committed language is the base
language `en` or one of the languages appearing in the association list, and is
never the synthetic `Count` member, so it always denotes a real catalog
column. -/
theorem init_committed_valid :
    ∀ langs : List String,
      (init langs = LangId.en ∨ init langs ∈ LANG_MAP.map Prod.snd) ∧
      init langs ≠ LangId.Count :=
  fun langs => ⟨init_reachable_aux langs, init_ne_count langs⟩
